import Mathlib

/-!
Verification development for the severino agent core: a shallow embedding of
the directive-processing pipeline (agent.py), the tool dispatch layer
(tool_manager.py), and the memory subsystem (long_term_memory_manager.py,
working_memory_manager.py, thought_process_manager.py), together with the
code-entity registration protocol of the CLI (commands.py).

Python values exchanged between these components are modelled by the
inductive type `TVal` (dicts as association lists with unique keys, the only
way the code ever builds them).  Python exceptions are modelled by `PyErr`
and fallible code returns `Except PyErr`.  SQLite tables are modelled as
lists of row structures; each call to the helper `_execute_query` opens its
own connection and commits, so every statement is its own transaction, which
the embedding mirrors by making each statement a total function on the
database state.
-/

namespace Severino

/-- Python exceptions that the embedded code can raise. -/
inductive PyErr where
  | valueError (msg : String)
  | keyError (key : String)
  | nameError (nm : String)
  | attributeError (msg : String)
  | typeError (msg : String)
  | integrityError (msg : String)
deriving Repr, DecidableEq

/-- Python values as used by the agent code: None, bools, ints, strings,
lists and dicts (association lists with unique keys). -/
inductive TVal where
  | none
  | bool (b : Bool)
  | int (n : Int)
  | str (s : String)
  | list (xs : List TVal)
  | dict (kvs : List (String × TVal))
deriving Repr

/-- Python truthiness for `TVal`. -/
def truthy : TVal → Bool
  | .none => false
  | .bool b => b
  | .int n => n != 0
  | .str s => s != ""
  | .list xs => !xs.isEmpty
  | .dict kvs => !kvs.isEmpty

/-- Python `v == "lit"` where `lit` is a string literal: true only when `v`
is a string equal to it (Python cross-type equality with a string is false). -/
def isStr (v : TVal) (s : String) : Bool :=
  match v with
  | .str t => t == s
  | _ => false

/-- Dict lookup, `d.get(k)`. -/
def dGet (kvs : List (String × TVal)) (k : String) : Option TVal :=
  match kvs with
  | [] => Option.none
  | (k0, v) :: rest => if k0 == k then some v else dGet rest k

/-- Dict lookup with default, `d.get(k, dflt)`. -/
def dGetD (kvs : List (String × TVal)) (k : String) (dflt : TVal) : TVal :=
  (dGet kvs k).getD dflt

/-- Remove a key from a dict (effect of `d.pop(k)` on the dict). -/
def dErase (kvs : List (String × TVal)) (k : String) : List (String × TVal) :=
  match kvs with
  | [] => []
  | (k0, v0) :: rest => if k0 == k then dErase rest k else (k0, v0) :: dErase rest k

/-- Dict assignment `d[k] = v`: replaces the value in place when the key is
present, appends otherwise (Python insertion order semantics). -/
def dSet (kvs : List (String × TVal)) (k : String) (v : TVal) : List (String × TVal) :=
  match kvs with
  | [] => [(k, v)]
  | (k0, v0) :: rest => if k0 == k then (k0, v) :: rest else (k0, v0) :: dSet rest k v

/-- Python str.lower(), modelled as per-character lowercasing over the
character list. -/
def pyLower (s : String) : String := ⟨s.data.map Char.toLower⟩

end Severino

namespace Severino.Memory

/-- Row of the `sessions` table. -/
structure SessionRow where
  sessionId : String
  startTime : String
  endTime : Option String
  projectPath : String
deriving Repr, DecidableEq

/-- Row of the `messages` table.  ISO timestamps order lexicographically in
chronological order; the embedding models them as naturals. -/
structure MessageRow where
  sessionId : String
  timestamp : Nat
  role : String
  content : String
deriving Repr, DecidableEq

/-- Row of the `code_entities` table.  The embedding vector is stored
JSON-encoded in SQLite; the embedding keeps the list itself since both ends
of the claims treat the serialization as transparent. -/
structure CodeEntityRow where
  entityId : Nat
  sessionId : String
  path : String
  entityType : String
  entityName : String
  checksum : String
  lastModified : String
  embedding : Option (List Int)
deriving Repr, DecidableEq

/-- Row of the `relationships` table. -/
structure RelationshipRow where
  relationshipId : Nat
  sessionId : String
  sourceEntityId : Nat
  targetEntityId : Nat
  relType : String
deriving Repr, DecidableEq

/-- Row of the `session_data` table; primary key is (sessionId, key). -/
structure SessionDataRow where
  sessionId : String
  key : String
  value : String
deriving Repr, DecidableEq

/-- The five-table SQLite database owned by LongTermMemoryManager, plus the
AUTOINCREMENT counters. -/
structure DB where
  sessions : List SessionRow
  messages : List MessageRow
  codeEntities : List CodeEntityRow
  relationships : List RelationshipRow
  sessionData : List SessionDataRow
  nextEntityId : Nat
  nextRelationshipId : Nat
  nextTimestamp : Nat
deriving Repr, DecidableEq

/-- The empty (freshly initialized) database. -/
def DB.empty : DB := ⟨[], [], [], [], [], 1, 1, 1⟩

/-- LongTermMemoryManager.create_session: plain INSERT into sessions. -/
def createSession (db : DB) (sessionId projectPath : String) : DB :=
  { db with sessions := db.sessions ++ [⟨sessionId, toString db.nextTimestamp, Option.none, projectPath⟩],
            nextTimestamp := db.nextTimestamp + 1 }

/-- LongTermMemoryManager.get_session: SELECT by session_id. -/
def getSession (db : DB) (sessionId : String) : Option SessionRow :=
  db.sessions.find? (fun r => r.sessionId == sessionId)

/-- LongTermMemoryManager.add_message: INSERT with the current timestamp. -/
def addMessage (db : DB) (sessionId role content : String) : DB :=
  { db with messages := db.messages ++ [⟨sessionId, db.nextTimestamp, role, content⟩],
            nextTimestamp := db.nextTimestamp + 1 }

/-- Projection returned by get_messages: (timestamp, role, content). -/
structure MessageOut where
  timestamp : Nat
  role : String
  content : String
deriving Repr, DecidableEq

/-- Insert into a timestamp-ascending list (model of ORDER BY timestamp ASC). -/
def insertByTs (m : MessageOut) : List MessageOut → List MessageOut
  | [] => [m]
  | n :: rest => if m.timestamp ≤ n.timestamp then m :: n :: rest else n :: insertByTs m rest

/-- Sort by timestamp ascending (model of ORDER BY timestamp ASC). -/
def sortByTs : List MessageOut → List MessageOut
  | [] => []
  | m :: rest => insertByTs m (sortByTs rest)

/-- LongTermMemoryManager.get_messages: SELECT ... WHERE session_id = ?
ORDER BY timestamp ASC, and, when `limit` is truthy (Python `if limit:`,
so a limit of 0 behaves like no limit), appends LIMIT ?, which takes the
FIRST `limit` rows of the ascending order. -/
def getMessages (db : DB) (sessionId : String) (limit : Option Nat) : List MessageOut :=
  let rows := sortByTs ((db.messages.filter (fun m => m.sessionId == sessionId)).map
    (fun m => ⟨m.timestamp, m.role, m.content⟩))
  match limit with
  | Option.none => rows
  | some l => if l == 0 then rows else rows.take l

/-- LongTermMemoryManager.add_code_entity: plain INSERT; the UNIQUE
constraint on `path` makes the INSERT raise IntegrityError when a row with
the same path already exists, leaving the table unchanged. -/
def addCodeEntity (db : DB) (sessionId path entityType entityName checksum lastModified : String)
    (embedding : Option (List Int)) : Except PyErr (DB × Nat) :=
  if db.codeEntities.any (fun r => r.path == path) then
    .error (.integrityError "UNIQUE constraint failed: code_entities.path")
  else
    .ok ({ db with
            codeEntities := db.codeEntities ++
              [⟨db.nextEntityId, sessionId, path, entityType, entityName, checksum, lastModified, embedding⟩],
            nextEntityId := db.nextEntityId + 1 },
         db.nextEntityId)

/-- LongTermMemoryManager.get_code_entity: SELECT by path. -/
def getCodeEntity (db : DB) (path : String) : Option CodeEntityRow :=
  db.codeEntities.find? (fun r => r.path == path)

/-- LongTermMemoryManager.update_code_entity_checksum: UPDATE checksum and
last_modified WHERE path = ?. -/
def updateCodeEntityChecksum (db : DB) (path newChecksum newLastModified : String) : DB :=
  { db with codeEntities := db.codeEntities.map (fun r =>
      if r.path == path then { r with checksum := newChecksum, lastModified := newLastModified } else r) }

/-- LongTermMemoryManager.add_relationship: plain INSERT (duplicates allowed). -/
def addRelationship (db : DB) (sessionId : String) (sourceEntityId targetEntityId : Nat) (relType : String) : DB :=
  { db with
      relationships := db.relationships ++
        [⟨db.nextRelationshipId, sessionId, sourceEntityId, targetEntityId, relType⟩],
      nextRelationshipId := db.nextRelationshipId + 1 }

/-- LongTermMemoryManager.set_session_data: INSERT OR REPLACE keyed on
(session_id, key): upsert semantics. -/
def setSessionData (db : DB) (sessionId key value : String) : DB :=
  { db with sessionData :=
      (db.sessionData.filter (fun r => !(r.sessionId == sessionId && r.key == key))) ++
      [⟨sessionId, key, value⟩] }

/-- LongTermMemoryManager.get_session_data: SELECT value by (session_id, key). -/
def getSessionDataRaw (db : DB) (sessionId key : String) : Option String :=
  (db.sessionData.find? (fun r => r.sessionId == sessionId && r.key == key)).map (fun r => r.value)

/-- LongTermMemoryManager.update_session_end_time. -/
def updateSessionEndTime (db : DB) (sessionId : String) : DB :=
  { db with
      sessions := db.sessions.map (fun r =>
        if r.sessionId == sessionId then { r with endTime := some (toString db.nextTimestamp) } else r),
      nextTimestamp := db.nextTimestamp + 1 }

/-- The five tables, used to describe the DELETE statements issued by
clear_session_data. -/
inductive Table where
  | messages
  | codeEntities
  | relationships
  | sessionData
  | sessions
deriving Repr, DecidableEq

/-- One DELETE ... WHERE session_id = ? statement against a single table;
each such statement runs through _execute_query, which opens its own
connection and commits, so it is an independent transaction. -/
def deleteForSession (db : DB) (t : Table) (sessionId : String) : DB :=
  match t with
  | .messages => { db with messages := db.messages.filter (fun r => !(r.sessionId == sessionId)) }
  | .codeEntities => { db with codeEntities := db.codeEntities.filter (fun r => !(r.sessionId == sessionId)) }
  | .relationships => { db with relationships := db.relationships.filter (fun r => !(r.sessionId == sessionId)) }
  | .sessionData => { db with sessionData := db.sessionData.filter (fun r => !(r.sessionId == sessionId)) }
  | .sessions => { db with sessions := db.sessions.filter (fun r => !(r.sessionId == sessionId)) }

/-- The order in which clear_session_data issues its five DELETE statements
(long_term_memory_manager.py lines 183-188). -/
def clearStmtTables : List Table :=
  [.messages, .codeEntities, .relationships, .sessionData, .sessions]

/-- State after the first `k` DELETE statements of clear_session_data have
committed.  Because every statement is its own transaction, a failure in
statement `k+1` leaves the database in exactly this state. -/
def clearSessionDataUpTo (db : DB) (sessionId : String) (k : Nat) : DB :=
  (clearStmtTables.take k).foldl (fun d t => deleteForSession d t sessionId) db

/-- LongTermMemoryManager.clear_session_data: the five DELETE statements in
program order, each a separate single-statement transaction. -/
def clearSessionData (db : DB) (sessionId : String) : DB :=
  clearStmtTables.foldl (fun d t => deleteForSession d t sessionId) db

/-- Foreign-key parents of each table in the schema created by
_initialize_db: messages, code_entities and session_data reference sessions;
relationships references sessions and code_entities. -/
def tableParents : Table → List Table
  | .messages => [.sessions]
  | .codeEntities => [.sessions]
  | .relationships => [.sessions, .codeEntities]
  | .sessionData => [.sessions]
  | .sessions => []

/-- Position of a table in the DELETE sequence of clear_session_data. -/
def clearIdx : Table → Nat
  | .messages => 0
  | .codeEntities => 1
  | .relationships => 2
  | .sessionData => 3
  | .sessions => 4

/-- A deletion order deletes children before parents when every table comes
strictly before each of its foreign-key parents. -/
def childrenBeforeParents : Prop :=
  ∀ t p, p ∈ tableParents t → clearIdx t < clearIdx p

/-- Python str() as applied by WorkingMemoryManager.update_session_data to
the values it stores (never reached for dicts and lists, see below). -/
def pyStr : TVal → String
  | .none => "None"
  | .bool b => if b then "True" else "False"
  | .int n => toString n
  | .str s => s
  | .list _ => ""
  | .dict _ => ""

/-- WorkingMemoryManager.update_session_data (working_memory_manager.py
lines 47-55).  For dict and list values the code evaluates json.dumps, but
the module never imports json, so the reference raises NameError before
anything is stored; all other values are stored via str(). -/
def wmUpdateSessionData (db : DB) (sessionId key : String) (v : TVal) : Except PyErr DB :=
  match v with
  | .dict _ => .error (.nameError "json")
  | .list _ => .error (.nameError "json")
  | v => .ok (setSessionData db sessionId key (pyStr v))

/-- WorkingMemoryManager.get_session_data (working_memory_manager.py lines
57-68).  A missing key returns the default; for any stored value the code
evaluates json.loads inside try, and since json is not imported the call
raises NameError (the except clause, which also names json, cannot catch
it). -/
def wmGetSessionData (db : DB) (sessionId key : String) (dflt : TVal) : Except PyErr TVal :=
  match getSessionDataRaw db sessionId key with
  | Option.none => .ok dflt
  | some _ => .error (.nameError "json")

/-- Outcome of registering one code entity through the CLI scan. -/
inductive RegOutcome where
  | added (entityId : Nat)
  | updated (entityId : Nat)
  | skipped (entityId : Nat)
deriving Repr, DecidableEq

/-- The code-entity registration protocol of the CLI scan (commands.py
lines 93-117): look the path up; if present and the checksum differs,
take the update path; if present with an identical checksum, skip; if
absent, INSERT a fresh row. -/
def registerFileEntity (db : DB) (sessionId path entityType entityName checksum lastModified : String)
    (embedding : Option (List Int)) : Except PyErr (DB × RegOutcome) :=
  match getCodeEntity db path with
  | some existing =>
      if existing.checksum != checksum then
        .ok (updateCodeEntityChecksum db path checksum lastModified, .updated existing.entityId)
      else
        .ok (db, .skipped existing.entityId)
  | Option.none =>
      (addCodeEntity db sessionId path entityType entityName checksum lastModified embedding).map
        (fun p => (p.1, .added p.2))

/-- Path uniqueness invariant of the code_entities table. -/
def pathUnique (db : DB) : Prop :=
  (db.codeEntities.map (fun r => r.path)).Nodup

/-- The mutating operations of LongTermMemoryManager, as one inductive so
that preservation of invariants can be stated over every operation. -/
inductive Op where
  | createSession (sessionId projectPath : String)
  | updateSessionEndTime (sessionId : String)
  | addMessage (sessionId role content : String)
  | addCodeEntity (sessionId path entityType entityName checksum lastModified : String)
      (embedding : Option (List Int))
  | updateCodeEntityChecksum (path newChecksum newLastModified : String)
  | addRelationship (sessionId : String) (sourceEntityId targetEntityId : Nat) (relType : String)
  | setSessionData (sessionId key value : String)
  | clearSessionData (sessionId : String)

/-- Apply an operation to the database; a failing INSERT (IntegrityError)
leaves the database unchanged, as in SQLite. -/
def applyOp (db : DB) : Op → DB
  | .createSession s p => createSession db s p
  | .updateSessionEndTime s => updateSessionEndTime db s
  | .addMessage s r c => addMessage db s r c
  | .addCodeEntity s p ty nm ck lm emb =>
      match addCodeEntity db s p ty nm ck lm emb with
      | .ok r => r.1
      | .error _ => db
  | .updateCodeEntityChecksum p ck lm => updateCodeEntityChecksum db p ck lm
  | .addRelationship s src tgt ty => addRelationship db s src tgt ty
  | .setSessionData s k v => setSessionData db s k v
  | .clearSessionData s => clearSessionData db s

end Severino.Memory

namespace Severino.Tooling

open Severino

/-- Argument dictionary passed to execute_tool (a Python dict). -/
abbrev Args := List (String × TVal)

/-- Tool definition record: the fields of the tool_definition dicts that
tool_manager.py reads (name, description, and the side_effects flag read
with default False). -/
structure ToolDef where
  name : String
  description : String
  sideEffects : Bool
deriving Repr, DecidableEq

/-- A capability instance held in _tool_instances, modelled by the results
of its interface methods: a sensor by its connect result, read_data value,
status and release values; an ML model by its load result, predict function
and status; an LLM provider by its load result, generation function (given
the prompt and the remaining keyword args) and status; an action by its
execute function and status. -/
inductive ToolInstance where
  | sensor (connectR : Bool) (readDataR : TVal) (statusR : TVal) (releaseR : TVal)
  | mlModel (loadModelR : Bool) (predictF : TVal → TVal) (statusR : TVal)
  | llmProvider (loadR : Bool) (generateF : TVal → Args → TVal) (statusR : TVal)
  | action (executeF : TVal → TVal) (statusR : TVal)

/-- The three registries of ToolManager: _tools (definitions),
_tool_implementations (direct callables, which may raise), and
_tool_instances (factory-created capability instances). -/
structure TMState where
  tools : List (String × ToolDef)
  impls : List (String × (Args → Except PyErr TVal))
  insts : List (String × ToolInstance)

/-- The empty ToolManager. -/
def TMState.empty : TMState := ⟨[], [], []⟩

/-- Association-list lookup by string key (Python dict .get). -/
def alookup {α : Type} (l : List (String × α)) (k : String) : Option α :=
  match l with
  | [] => Option.none
  | (k0, v) :: rest => if k0 == k then some v else alookup rest k

/-- Association-list assignment (Python dict item assignment): replace in
place when present, append otherwise. -/
def aset {α : Type} (l : List (String × α)) (k : String) (v : α) : List (String × α) :=
  match l with
  | [] => [(k, v)]
  | (k0, v0) :: rest => if k0 == k then (k0, v) :: rest else (k0, v0) :: aset rest k v

/-- What a registration supplies: exactly one of a direct callable or a
factory-created capability instance (the factory call itself is modelled by
the instance it returns; register_tool validates the factory arguments and
raises before any state change when neither form is supplied). -/
inductive RegSpec where
  | callableImpl (f : Args → Except PyErr TVal)
  | factoryInstance (inst : ToolInstance)

/-- ToolManager.register_tool (tool_manager.py lines 22-67): warn (not
error) when the name is already registered, store the definition, then
store the implementation in _tool_implementations or the created instance
in _tool_instances.  The other registry entry for the same name, if any,
is left in place.  Returns the new state and whether the overwrite warning
was printed. -/
def registerTool (tm : TMState) (d : ToolDef) (spec : RegSpec) : TMState × Bool :=
  let warned := (alookup tm.tools d.name).isSome
  let tm1 := { tm with tools := aset tm.tools d.name d }
  match spec with
  | .factoryInstance inst => ({ tm1 with insts := aset tm1.insts d.name inst }, warned)
  | .callableImpl f => ({ tm1 with impls := aset tm1.impls d.name f }, warned)

/-- ToolManager.get_tool_definition. -/
def getToolDefinition (tm : TMState) (toolName : String) : Option ToolDef :=
  alookup tm.tools toolName

/-- A record of one underlying capability-method or callable invocation,
used to observe whether and with what data an implementation was reached. -/
structure CallRec where
  tool : String
  method : String
  argv : Option TVal
deriving Repr

/-- args.pop(k, dflt): the value (or default) and the dict without the key. -/
def popD (args : Args) (k : String) (dflt : TVal) : TVal × Args :=
  match dGet args k with
  | some v => (v, dErase args k)
  | Option.none => (dflt, args)

/-- args.pop(k) with no default: KeyError when absent. -/
def popHard (args : Args) (k : String) : Except PyErr (TVal × Args) :=
  match dGet args k with
  | some v => .ok (v, dErase args k)
  | Option.none => .error (.keyError k)

/-- The result dict returned when the user declines confirmation. -/
def cancelledResult : TVal :=
  .dict [("status", .str "cancelled"), ("message", .str "Tool execution cancelled by user.")]

/-- The result dict returned when a direct callable raises. -/
def errorResult (e : PyErr) : TVal :=
  .dict [("status", .str "error"), ("message", .str (reprStr e))]

/-- The dispatch part of ToolManager.execute_tool (lines 108-161):
capability instances are consulted first, then direct callables.  Sensor,
model and LLM dispatch pop the operation key (with per-kind defaults) and
per-operation data from the caller-supplied args dict, mutating it; an
unrecognized operation raises ValueError.  Action dispatch pops only the
payload.  A direct callable receives the args expanded as keyword
parameters; an exception it raises is caught and converted to an error
result dict.  Returns the result, the args dict after mutation, and the
underlying invocations performed. -/
def dispatchTool (tm : TMState) (toolName : String) (args : Args) :
    Except PyErr (TVal × Args × List CallRec) :=
  match alookup tm.insts toolName with
  | some inst =>
    match inst with
    | .sensor connectR readDataR statusR releaseR =>
      let (op, args1) := popD args "operation" (.str "read_data")
      if isStr op "connect" then .ok (.bool connectR, args1, [⟨toolName, "connect", Option.none⟩])
      else if isStr op "read_data" then .ok (readDataR, args1, [⟨toolName, "read_data", Option.none⟩])
      else if isStr op "get_status" then .ok (statusR, args1, [⟨toolName, "get_status", Option.none⟩])
      else if isStr op "release" then .ok (releaseR, args1, [⟨toolName, "release", Option.none⟩])
      else .error (.valueError "Unsupported sensor operation")
    | .mlModel loadModelR predictF statusR =>
      let (op, args1) := popD args "operation" (.str "predict")
      if isStr op "load_model" then .ok (.bool loadModelR, args1, [⟨toolName, "load_model", Option.none⟩])
      else if isStr op "predict" then
        match popHard args1 "data" with
        | .ok (data, args2) => .ok (predictF data, args2, [⟨toolName, "predict", some data⟩])
        | .error e => .error e
      else if isStr op "get_status" then .ok (statusR, args1, [⟨toolName, "get_status", Option.none⟩])
      else .error (.valueError "Unsupported ML model operation")
    | .llmProvider loadR generateF statusR =>
      let (op, args1) := popD args "operation" (.str "generate_response")
      if isStr op "load_llm" then .ok (.bool loadR, args1, [⟨toolName, "load_llm", Option.none⟩])
      else if isStr op "generate_response" then
        match popHard args1 "prompt" with
        | .ok (promptV, args2) => .ok (generateF promptV args2, args2, [⟨toolName, "generate_response", some promptV⟩])
        | .error e => .error e
      else if isStr op "get_status" then .ok (statusR, args1, [⟨toolName, "get_status", Option.none⟩])
      else .error (.valueError "Unsupported LLM provider operation")
    | .action executeF _statusR =>
      let (payload, args1) := popD args "payload" (.dict [])
      .ok (executeF payload, args1, [⟨toolName, "execute", some payload⟩])
  | Option.none =>
    match alookup tm.impls toolName with
    | some f =>
      match f args with
      | .ok v => .ok (v, args, [⟨toolName, "call", Option.none⟩])
      | .error e => .ok (errorResult e, args, [⟨toolName, "call", Option.none⟩])
    | Option.none => .error (.valueError "Tool not found or not properly initialized")

/-- ToolManager.execute_tool (tool_manager.py lines 81-161): unknown names
raise ValueError; when confirmation is required and the definition declares
side effects, the user reply is lowercased and anything other than yes
cancels before any dispatch, returning the cancelled result with the args
dict unmutated and no underlying invocation; otherwise dispatch proceeds. -/
def executeTool (tm : TMState) (toolName : String) (args : Args)
    (requireConfirmation : Bool) (confirmReply : String) :
    Except PyErr (TVal × Args × List CallRec) :=
  match alookup tm.tools toolName with
  | Option.none => .error (.valueError "Tool not found")
  | some d =>
    if requireConfirmation && d.sideEffects then
      if pyLower confirmReply = "yes" then dispatchTool tm toolName args
      else .ok (cancelledResult, args, [])
    else dispatchTool tm toolName args

end Severino.Tooling

namespace Severino.Agent

open Severino Severino.Memory Severino.Tooling

/-- The three LLM requests the pipeline makes, by stage and the data each
prompt template embeds (the surrounding fixed English instruction text is
immaterial to every claim and is not reproduced). -/
inductive Prompt where
  | refactor (directive : String)
  | refine (goal : TVal) (entities : TVal) (seedSteps : List TVal)
  | compileStage (results : List TVal)

/-- Python attribute access .get on something expected to be a dict; a
non-dict raises (AttributeError in the reference). -/
def asDict : TVal → Except PyErr (List (String × TVal))
  | .dict kvs => .ok kvs
  | _ => .error (.attributeError "object has no attribute get")

/-- Agent._refactor_directive (agent.py lines 109-127): ask the LLM, parse
its text as JSON; on parse failure return the fallback dict carrying the
raw directive and the unparseable text. -/
def refactorDirective (jsonLoads : String → Option TVal) (llm : Prompt → String)
    (directive : String) : TVal :=
  let txt := llm (.refactor directive)
  match jsonLoads txt with
  | some v => v
  | Option.none => .dict [("raw_directive", .str directive), ("interpretation_error", .str txt)]

/-- The connect plan step seeded for a video_camera sensor capability
(agent.py lines 147-150). -/
def connectCameraStep (sensorType : String) : TVal :=
  .dict [("description", .str ("Connect to " ++ sensorType)),
         ("tool_call", .dict [("tool_name", .str "main_camera_sensor"),
                              ("args", .dict [("operation", .str "connect")])])]

/-- The read plan step seeded for a video_camera sensor capability
(agent.py lines 151-154). -/
def readCameraStep (sensorType : String) : TVal :=
  .dict [("description", .str ("Read frame from " ++ sensorType)),
         ("tool_call", .dict [("tool_name", .str "main_camera_sensor"),
                              ("args", .dict [("operation", .str "read_data")])])]

/-- The load-model plan step seeded for an object_detection capability
(agent.py lines 160-163). -/
def loadModelStep (mlModelType : String) : TVal :=
  .dict [("description", .str ("Load " ++ mlModelType ++ " model")),
         ("tool_call", .dict [("tool_name", .str "object_detection_model"),
                              ("args", .dict [("operation", .str "load_model")])])]

/-- The predict plan step seeded for an object_detection capability, with
the literal frame placeholder (agent.py lines 164-167). -/
def predictModelStep (mlModelType : String) : TVal :=
  .dict [("description", .str ("Perform " ++ mlModelType ++ " on frame")),
         ("tool_call", .dict [("tool_name", .str "object_detection_model"),
                              ("args", .dict [("operation", .str "predict"),
                                              ("data", .str "<frame_placeholder>")])])]

/-- The sensor loop of the Break-Down seeding: two steps for every element
equal to the string video_camera, nothing for the others. -/
def sensorSeedSteps : List TVal → List TVal
  | [] => []
  | v :: rest =>
      (if isStr v "video_camera" then [connectCameraStep "video_camera", readCameraStep "video_camera"]
       else []) ++ sensorSeedSteps rest

/-- The ML-model loop of the Break-Down seeding: two steps for every
element equal to the string object_detection. -/
def modelSeedSteps : List TVal → List TVal
  | [] => []
  | v :: rest =>
      (if isStr v "object_detection" then [loadModelStep "object_detection", predictModelStep "object_detection"]
       else []) ++ modelSeedSteps rest

/-- The deterministic seeding part of Agent._break_down_task (agent.py
lines 139-167): sensor-derived steps first, then model-derived steps.  The
reference only ever reaches this code with required_capabilities a dict
whose values are lists (the Refactor fallback supplies no such key at all);
other shapes would raise in the for loops and are modelled as TypeError. -/
def breakDownSeed (rc : TVal) : Except PyErr (List TVal) := do
  let kvs ← match rc with
    | .dict kvs => Except.ok kvs
    | _ => Except.error (PyErr.typeError "required_capabilities is not a mapping")
  let sensorSteps ← match dGet kvs "sensors" with
    | some (.list xs) => Except.ok (sensorSeedSteps xs)
    | some _ => Except.error (PyErr.typeError "sensors value is not a list")
    | Option.none => Except.ok []
  let modelSteps ← match dGet kvs "ml_models" with
    | some (.list xs) => Except.ok (modelSeedSteps xs)
    | some _ => Except.error (PyErr.typeError "ml_models value is not a list")
    | Option.none => Except.ok []
  pure (sensorSteps ++ modelSteps)

/-- The refinement request _break_down_task submits to the LLM: it embeds
the goal, the entities and the deterministic seed, all computed before the
request is made (agent.py lines 135-175). -/
def breakDownRefineRequest (rd : TVal) : Except PyErr Prompt := do
  let kvs ← asDict rd
  let goal := dGetD kvs "goal" (.str "")
  let entities := dGetD kvs "entities" (.list [])
  let rc := dGetD kvs "required_capabilities" (.dict [])
  let seed ← breakDownSeed rc
  pure (.refine goal entities seed)

/-- Agent._break_down_task (agent.py lines 129-184): seed the plan
deterministically from required_capabilities, then ask the LLM to refine
the seed (the refine prompt embeds the goal, the entities and the seed);
a JSON parse failure of the refinement yields the single fallback step
carrying the raw LLM text. -/
def breakDownTask (jsonLoads : String → Option TVal) (llm : Prompt → String)
    (rd : TVal) : Except PyErr (List TVal) := do
  let req ← breakDownRefineRequest rd
  let txt := llm req
  match jsonLoads txt with
  | some (.list steps) => pure steps
  | some _ => Except.error (PyErr.typeError "refined plan is not a list of steps")
  | Option.none =>
      pure [.dict [("description", .str "Failed to generate refined plan from LLM."),
                   ("error", .str txt)]]

/-- One entry of the Execute stage result list; the reference builds a dict
with a step key (the description), a status, and optional result and error
keys. -/
structure StepResult where
  stepDesc : TVal
  status : String
  result : Option TVal
  errorMsg : Option String
deriving Repr

/-- The result dict as the reference builds it. -/
def StepResult.toTVal (s : StepResult) : TVal :=
  .dict ([("step", s.stepDesc), ("status", .str s.status)]
    ++ (match s.result with | some r => [("result", r)] | Option.none => [])
    ++ (match s.errorMsg with | some e => [("error", .str e)] | Option.none => []))

/-- The state threaded across plan steps by Agent._execute_plan: the most
recently captured frame, and whether the object detection model was loaded
(the loaded_models dict is only ever written at that one key). -/
structure ExecState where
  currentFrame : Option TVal
  odModelLoaded : Bool

/-- Python comparison of a tool_name lookup result with a string literal. -/
def nameIs (v : Option TVal) (s : String) : Bool :=
  match v with
  | some (.str t) => t == s
  | _ => false

/-- One iteration of the Agent._execute_plan loop (agent.py lines
194-259).  Known tool-name families are special-cased: a camera read
captures the frame or marks failure; a model load records success; a model
predict substitutes the captured frame for the data argument and is
skipped when no frame or no loaded model is available; alert and shell
steps go through execute_tool with confirmation required; unrecognized
tools go through a generic passthrough whose exceptions are caught into an
error step; steps without a truthy tool_call are marked no_tool_call. -/
def execStep (tm : TMState) (confirmReply : String) (st : ExecState) (step : TVal) :
    Except PyErr (ExecState × StepResult × List CallRec) := do
  let kvs ← asDict step
  let desc := dGetD kvs "description" (.str "Unknown Step")
  let tcv := dGetD kvs "tool_call" .none
  if truthy tcv then
    let tckvs ← asDict tcv
    let toolNameV := dGet tckvs "tool_name"
    let args ← asDict (dGetD tckvs "args" (.dict []))
    if nameIs toolNameV "main_camera_sensor" then
      if isStr (dGetD args "operation" .none) "read_data" then
        match executeTool tm "main_camera_sensor" args false confirmReply with
        | .error e => Except.error e
        | .ok (frameResult, _, calls) =>
          if truthy frameResult then
            pure ({ st with currentFrame := some frameResult },
                  ⟨desc, "executed", some (.str "Frame captured."), Option.none⟩, calls)
          else
            pure (st, ⟨desc, "failed", Option.none, some "Failed to capture frame."⟩, calls)
      else
        match executeTool tm "main_camera_sensor" args false confirmReply with
        | .error e => Except.error e
        | .ok (r, _, calls) => pure (st, ⟨desc, "executed", some r, Option.none⟩, calls)
    else if nameIs toolNameV "object_detection_model" then
      if isStr (dGetD args "operation" .none) "load_model" then
        match executeTool tm "object_detection_model" args false confirmReply with
        | .error e => Except.error e
        | .ok (loadResult, _, calls) =>
          if truthy loadResult then
            pure ({ st with odModelLoaded := true },
                  ⟨desc, "executed", some (.str "Model loaded."), Option.none⟩, calls)
          else
            pure (st, ⟨desc, "failed", Option.none, some "Failed to load model."⟩, calls)
      else if isStr (dGetD args "operation" .none) "predict" then
        if st.currentFrame.isSome && st.odModelLoaded then
          match st.currentFrame with
          | some frame =>
            match executeTool tm "object_detection_model" (dSet args "data" frame) false confirmReply with
            | .error e => Except.error e
            | .ok (detections, _, calls) =>
              pure (st, ⟨desc, "executed", some (.dict [("detections", detections)]), Option.none⟩, calls)
          | Option.none =>
            pure (st, ⟨desc, "skipped", Option.none, some "No frame or model not loaded for prediction."⟩, [])
        else
          pure (st, ⟨desc, "skipped", Option.none, some "No frame or model not loaded for prediction."⟩, [])
      else
        pure (st, ⟨desc, "executed", Option.none, Option.none⟩, [])
    else if nameIs toolNameV "send_alert_notification" then
      let payload := dGetD args "payload" (.dict [])
      match executeTool tm "send_alert_notification" [("payload", payload)] true confirmReply with
      | .error e => Except.error e
      | .ok (alertResult, _, calls) => pure (st, ⟨desc, "executed", some alertResult, Option.none⟩, calls)
    else if nameIs toolNameV "run_shell_command" then
      let command := dGetD args "command" .none
      match executeTool tm "run_shell_command" [("command", command)] true confirmReply with
      | .error e => Except.error e
      | .ok (shellResult, _, calls) => pure (st, ⟨desc, "executed", some shellResult, Option.none⟩, calls)
    else
      match toolNameV with
      | some (.str nm) =>
        match executeTool tm nm args false confirmReply with
        | .ok (r, _, calls) => pure (st, ⟨desc, "executed", some r, Option.none⟩, calls)
        | .error e => pure (st, ⟨desc, "error", Option.none, some (reprStr e)⟩, [])
      | _ =>
        pure (st, ⟨desc, "error", Option.none, some (reprStr (PyErr.valueError "Tool not found"))⟩, [])
  else
    pure (st, ⟨desc, "no_tool_call", Option.none, Option.none⟩, [])

/-- The Execute-stage loop, threading the carried state and collecting the
step results and the underlying invocations in order. -/
def executePlanGo (tm : TMState) (confirmReply : String) :
    ExecState → List TVal → Except PyErr (List StepResult × List CallRec)
  | _, [] => .ok ([], [])
  | st, step :: rest => do
    let (st1, sr, calls) ← execStep tm confirmReply st step
    let (srs, more) ← executePlanGo tm confirmReply st1 rest
    pure (sr :: srs, calls ++ more)

/-- Agent._execute_plan (agent.py lines 186-260). -/
def executePlan (tm : TMState) (confirmReply : String) (plan : List TVal) :
    Except PyErr (List StepResult × List CallRec) :=
  executePlanGo tm confirmReply ⟨Option.none, false⟩ plan

/-- Agent._compile_results (agent.py lines 262-283): ask the LLM to
synthesize the insight; a parse failure yields the fallback dict carrying
the raw results and the unparseable text. -/
def compileResults (jsonLoads : String → Option TVal) (llm : Prompt → String)
    (results : List StepResult) : TVal :=
  let txt := llm (.compileStage (results.map StepResult.toTVal))
  match jsonLoads txt with
  | some v => v
  | Option.none =>
      .dict [("raw_results", .list (results.map StepResult.toTVal)),
             ("compilation_error", .str txt)]

/-- One ThoughtProcessManager entry (wall-clock timestamp and session id
omitted: constant per directive and touched by no claim). -/
structure ThoughtEntry where
  stepName : String
  description : String
  details : TVal

/-- The value Agent.process_directive returns, together with the database
state after persisting the insight. -/
structure DirectiveResult where
  insight : TVal
  thoughtLog : List ThoughtEntry
  dbAfter : DB

/-- Agent.process_directive (agent.py lines 81-107): clear the thought
log, run Refactor, Break Down, Execute and Compile in order, log a thought
after each stage, persist the final insight in working memory under the
key last_insight, and return the insight with the thought log. -/
def processDirective (jsonLoads : String → Option TVal) (llm : Prompt → String)
    (tm : TMState) (db : DB) (sessionId confirmReply directive : String) :
    Except PyErr DirectiveResult := do
  let log0 := [ThoughtEntry.mk "Directive Received" directive (.dict [("directive", .str directive)])]
  let rd := refactorDirective jsonLoads llm directive
  let log1 := log0 ++ [⟨"Refactor Step", "Directive interpreted and initial data structured.",
                        .dict [("refactored_data", rd)]⟩]
  let plan ← breakDownTask jsonLoads llm rd
  let log2 := log1 ++ [⟨"Break Down Step", "Task decomposed into a plan.",
                        .dict [("plan", .list plan)]⟩]
  let (results, _calls) ← executePlan tm confirmReply plan
  let log3 := log2 ++ [⟨"Execution Step", "Plan executed.",
                        .dict [("results", .list (results.map StepResult.toTVal))]⟩]
  let insight := compileResults jsonLoads llm results
  let log4 := log3 ++ [⟨"Compile Step", "Results compiled into final insight.",
                        .dict [("insight", insight)]⟩]
  let db1 ← wmUpdateSessionData db sessionId "last_insight" insight
  pure ⟨insight, log4, db1⟩

end Severino.Agent

namespace Severino.Claims

open Severino Severino.Memory Severino.Tooling Severino.Agent

/-- Projection of the status field of a result dict. -/
def statusField : TVal → Option TVal
  | .dict kvs => dGet kvs "status"
  | _ => Option.none

/-- A database holding a session s with one row of every owned kind, used
as the concrete input for the clear_session_data claims. -/
def c3db : DB :=
  applyOp (applyOp (applyOp (applyOp (applyOp DB.empty
    (.createSession "s" "/proj"))
    (.addMessage "s" "user" "hello"))
    (.addCodeEntity "s" "/proj/f.py" "file" "f.py" "c1" "t1" Option.none))
    (.addRelationship "s" 1 1 "imports"))
    (.setSessionData "s" "k" "v")

/-- A database holding only a session s, used for the session-data
round-trip claim. -/
def c4db : DB := createSession DB.empty "s" "/proj"

/-- A session with three messages in insertion order, used for the
get_messages claims. -/
def c7db : DB :=
  addMessage (addMessage (addMessage (createSession DB.empty "s" "/proj")
    "s" "user" "m1") "s" "assistant" "m2") "s" "user" "m3"

/-- A ToolManager with one side-effecting direct-callable tool, used for
the confirmation-decline claim. -/
def c2tm : TMState :=
  ⟨[("run_shell_command", ⟨"run_shell_command", "Executes a shell command.", true⟩)],
   [("run_shell_command", fun _ => .ok (.str "ran"))], []⟩

/-- The definition used by both registrations of the duplicate-name claim. -/
def c6d : ToolDef := ⟨"t", "demo tool", false⟩

/-- State after registering t as a factory-backed sensor instance. -/
def c6tm1 : TMState :=
  (registerTool TMState.empty c6d (.factoryInstance (.sensor true (.str "old") .none .none))).1

/-- Second registration of t, now as a direct callable. -/
def c6reg2 : TMState × Bool :=
  registerTool c6tm1 c6d (.callableImpl (fun _ => .ok (.str "new")))

/-- A ToolManager with one action-backed tool, used for the args-mutation
claim. -/
def c10tm : TMState :=
  ⟨[("send_alert_notification", ⟨"send_alert_notification", "Sends an alert notification.", false⟩)],
   [],
   [("send_alert_notification", .action (fun p => .dict [("delivered", p)]) .none)]⟩

/-- The caller args for the args-mutation counterexample: a capability
instance invocation carrying both an operation and a payload key. -/
def c10args : Args := [("operation", .str "execute"), ("payload", .dict [])]

/-- The ToolManager of the frame-substitution scenario: the camera sensor
and the object detection model registered by their conventional names,
parameterized by the connect result, the frame the sensor returns and the
model behavior (its load succeeds, as the scenario requires). -/
def c9TM (connectOk : Bool) (frame : TVal) (predictF : TVal → TVal) : TMState :=
  ⟨[("main_camera_sensor", ⟨"main_camera_sensor", "Main video camera sensor.", true⟩),
    ("object_detection_model", ⟨"object_detection_model", "Object detection model.", false⟩)],
   [],
   [("main_camera_sensor", .sensor connectOk frame .none .none),
    ("object_detection_model", .mlModel true predictF .none)]⟩

/-- The four-step plan of the frame-substitution scenario: connect camera,
read frame, load model, predict with the placeholder data. -/
def c9Plan : List TVal :=
  [connectCameraStep "video_camera", readCameraStep "video_camera",
   loadModelStep "object_detection", predictModelStep "object_detection"]

/-- The register-twice protocol property: starting from a store without
path P, registering P yields one new row; registering P again with the
same checksum skips (the update path is not invoked) and leaves the store
unchanged with exactly one row for P; registering P with a different
checksum takes the update path, updating checksum and last-modified in
place, still with exactly one row for P. -/
def C5RegisterTwice (db : Severino.Memory.DB)
    (sid path ty nm c1 c2 t1 t2 t3 : String) (emb : Option (List Int)) : Prop :=
  ∃ db1 db2 : Severino.Memory.DB,
    registerFileEntity db sid path ty nm c1 t1 emb = .ok (db1, .added db.nextEntityId)
    ∧ registerFileEntity db1 sid path ty nm c1 t2 emb = .ok (db1, .skipped db.nextEntityId)
    ∧ db1.codeEntities.filter (fun r => r.path == path) =
        [⟨db.nextEntityId, sid, path, ty, nm, c1, t1, emb⟩]
    ∧ registerFileEntity db1 sid path ty nm c2 t3 emb = .ok (db2, .updated db.nextEntityId)
    ∧ db2.codeEntities.filter (fun r => r.path == path) =
        [⟨db.nextEntityId, sid, path, ty, nm, c2, t3, emb⟩]

end Severino.Claims

namespace Severino.Claims

open Severino Severino.Memory Severino.Tooling Severino.Agent

/-- C4: the claim says update_session_data followed by get_session_data
round-trips dicts, lists, strings and int-strings, decoding JSON on read
and degrading to the raw string on parse failure.  On the code this fails:
working_memory_manager.py never imports json, so storing a dict raises
NameError, and reading back any stored value (here the plain string hello)
raises NameError as well instead of returning it. -/
theorem c4_session_data_roundtrip_code_bug :
    wmUpdateSessionData c4db "s" "k" (.dict [("a", .int 1)]) = .error (.nameError "json")
    ∧ (wmUpdateSessionData c4db "s" "k" (.str "hello")).bind
        (fun db1 => wmGetSessionData db1 "s" "k" .none) = .error (.nameError "json") :=
  ⟨rfl, rfl⟩

/-- C7: the claim says get_messages returns insertion order and, given a
limit n, the n most recent messages.  On the code the ordering holds, but
LIMIT is applied to the timestamp-ascending query, so a limit of 2 over
the three messages m1, m2, m3 returns the two OLDEST messages [m1, m2]
rather than the tail [m2, m3] promised by the claim (and by the
get_history docstring in working_memory_manager.py). -/
theorem c7_get_messages_code_bug :
    getMessages c7db "s" Option.none =
      [⟨2, "user", "m1"⟩, ⟨3, "assistant", "m2"⟩, ⟨4, "user", "m3"⟩]
    ∧ getMessages c7db "s" (some 2) = [⟨2, "user", "m1"⟩, ⟨3, "assistant", "m2"⟩]
    ∧ getMessages c7db "s" (some 2) ≠ [⟨3, "assistant", "m2"⟩, ⟨4, "user", "m3"⟩] := by
  refine ⟨rfl, rfl, ?_⟩
  decide

/-- C2: a registered tool whose definition declares side_effects, executed
with require_confirmation and a non-affirmative reply (anything whose
lowercasing is not yes), returns the cancelled-status result, the caller
args dict unmutated, and performs no underlying invocation at all (the
model threads no state change anywhere on this path, so the registries and
instances are untouched). -/
theorem c2_declined_confirmation_cancels (tm : TMState) (toolName : String) (d : ToolDef)
    (args : Args) (reply : String)
    (hdef : alookup tm.tools toolName = some d)
    (hse : d.sideEffects = true)
    (hreply : pyLower reply ≠ "yes") :
    executeTool tm toolName args true reply = .ok (cancelledResult, args, [])
    ∧ statusField cancelledResult = some (.str "cancelled") := by
  refine ⟨?_, rfl⟩
  unfold executeTool
  rw [hdef]
  simp [hse, hreply]

/-- Witness for C2 at a concrete side-effecting shell tool and the reply no. -/
theorem c2_witness :
    alookup c2tm.tools "run_shell_command" =
      some ⟨"run_shell_command", "Executes a shell command.", true⟩
    ∧ (ToolDef.mk "run_shell_command" "Executes a shell command." true).sideEffects = true
    ∧ pyLower "no" ≠ "yes"
    ∧ (executeTool c2tm "run_shell_command" [("command", .str "ls")] true "no" =
         .ok (cancelledResult, [("command", .str "ls")], [])
       ∧ statusField cancelledResult = some (.str "cancelled")) :=
  ⟨rfl, rfl, by decide,
   c2_declined_confirmation_cancels c2tm "run_shell_command" _ [("command", .str "ls")] "no"
     rfl rfl (by decide)⟩

/-- C10, counterexample: the claim says every capability-instance dispatch
removes the operation key from the caller args.  For an action instance
the code pops only payload: with args containing both keys, the args dict
after the call still contains operation (and has lost payload). -/
theorem c10_counterexample :
    executeTool c10tm "send_alert_notification" c10args false "" =
      .ok (.dict [("delivered", .dict [])], [("operation", .str "execute")],
           [⟨"send_alert_notification", "execute", some (.dict [])⟩])
    ∧ dGet [("operation", .str "execute")] "operation" ≠ Option.none := by
  refine ⟨rfl, ?_⟩
  simp [dGet]

/-- C6, counterexample: the claim says that after re-registration every
execute_tool call follows the latest registration.  Registering t first as
a factory-backed sensor instance and then as a direct callable leaves the
stale instance in _tool_instances, which execute_tool consults before
_tool_implementations: execution still returns the old instance data, not
the new callable result (the warning on re-registration does fire). -/
theorem c6_counterexample :
    c6reg2.2 = true
    ∧ executeTool c6reg2.1 "t" [("operation", .str "read_data")] false "" =
        .ok (.str "old", [], [⟨"t", "read_data", Option.none⟩])
    ∧ (TVal.str "old" : TVal) ≠ .str "new" := by
  refine ⟨rfl, rfl, ?_⟩
  intro h
  injection h with h2
  exact absurd h2 (by decide)

/-- C3, counterexample: the claim requires children-before-parent deletion
order and a single atomic transaction.  The code deletes code_entities
(statement 2) before relationships (statement 3), although relationships
has a foreign key into code_entities; and each DELETE commits in its own
connection, so after the first statement commits (the state a failure in
statement 2 would leave behind) the messages of s are already gone while
the session row of s still exists — not all-or-nothing. -/
theorem c3_counterexample :
    (¬ Severino.Memory.childrenBeforeParents)
    ∧ (clearSessionDataUpTo c3db "s" 1).messages = []
    ∧ getSession (clearSessionDataUpTo c3db "s" 1) "s" =
        some ⟨"s", "1", Option.none, "/proj"⟩
    ∧ clearSessionDataUpTo c3db "s" 1 ≠ c3db := by
  refine ⟨?_, rfl, rfl, ?_⟩
  · intro h
    have h2 := h .relationships .codeEntities (by simp [tableParents])
    simp [clearIdx] at h2
  · decide

end Severino.Claims

namespace Severino.Claims

open Severino Severino.Memory Severino.Tooling Severino.Agent

/-- C3, amended: clear_session_data does delete the rows of all five
record kinds owned by the session, with the session row last, but it does
so through five separate single-statement transactions issued in the order
messages, code_entities, relationships, session_data, sessions (so the
child table relationships is deleted after its parent code_entities), and
the sequence is not atomic: the state after only the first statement has
committed already lacks the messages of the session while every other
owned row, including the session row, is still present. -/
theorem c3_amended_clear_session (db : DB) (sid : String) :
    clearStmtTables = [Table.messages, .codeEntities, .relationships, .sessionData, .sessions]
    ∧ (clearSessionData db sid).messages = db.messages.filter (fun r => !(r.sessionId == sid))
    ∧ (clearSessionData db sid).codeEntities = db.codeEntities.filter (fun r => !(r.sessionId == sid))
    ∧ (clearSessionData db sid).relationships = db.relationships.filter (fun r => !(r.sessionId == sid))
    ∧ (clearSessionData db sid).sessionData = db.sessionData.filter (fun r => !(r.sessionId == sid))
    ∧ (clearSessionData db sid).sessions = db.sessions.filter (fun r => !(r.sessionId == sid))
    ∧ (clearSessionDataUpTo db sid 1).messages = db.messages.filter (fun r => !(r.sessionId == sid))
    ∧ (clearSessionDataUpTo db sid 1).sessions = db.sessions
    ∧ (clearSessionDataUpTo db sid 1).codeEntities = db.codeEntities :=
  ⟨rfl, rfl, rfl, rfl, rfl, rfl, rfl, rfl, rfl⟩

/-- Looking up the key just assigned in an association list yields the
assigned value. -/
theorem alookup_aset_self {α : Type} (l : List (String × α)) (k : String) (v : α) :
    alookup (aset l k v) k = some v := by
  induction l with
  | nil => simp [aset, alookup]
  | cons hd tl ih =>
    by_cases h : hd.1 == k
    · simp [aset, alookup, h]
    · simp only [aset, alookup, h]
      simp only [Bool.false_eq_true, if_false]
      exact ih

/-- Looking up the value just popped: when the key is present, pop returns
its value and the dict without the key. -/
theorem popD_eq_of_some (args : Args) (k : String) (dflt v : TVal)
    (h : dGet args k = some v) : popD args k dflt = (v, dErase args k) := by
  simp [popD, h]

/-- Popping an absent key returns the default and leaves the dict as is. -/
theorem popD_eq_of_none (args : Args) (k : String) (dflt : TVal)
    (h : dGet args k = Option.none) : popD args k dflt = (dflt, args) := by
  simp [popD, h]

/-- Erasing one key of a dict does not change the lookup of another key. -/
theorem dGet_dErase_ne (args : List (String × TVal)) (k1 k2 : String) (h : k1 ≠ k2) :
    dGet (dErase args k1) k2 = dGet args k2 := by
  induction args with
  | nil => rfl
  | cons hd tl ih =>
    obtain ⟨k0, v⟩ := hd
    by_cases h1 : k0 == k1
    · have h1e : k0 = k1 := by simpa using h1
      have hne : (k0 == k2) = false := by
        subst h1e
        exact beq_eq_false_iff_ne.mpr h
      simp [dErase, dGet, h1, hne, ih]
    · by_cases h2 : k0 == k2
      · simp [dErase, dGet, h1, h2]
      · simp [dErase, dGet, h1, h2, ih]

/-- C6, amended: re-registering an existing tool name succeeds with a
warning (never an error) and get_tool_definition always reflects the
latest definition; execution follows the latest registration when the
latest is factory-backed or when both registrations are direct callables,
but when a factory-backed registration is later overwritten by a direct
callable the stale instance remains in _tool_instances, which execute_tool
consults first, so execution still follows the earlier factory-backed
registration. -/
theorem c6_amended_reregistration :
    (∀ (tm : TMState) (d : ToolDef) (spec : RegSpec),
        (alookup tm.tools d.name).isSome = true → (registerTool tm d spec).2 = true)
    ∧ (∀ (tm : TMState) (d : ToolDef) (spec : RegSpec),
        getToolDefinition (registerTool tm d spec).1 d.name = some d)
    ∧ (∀ (tm : TMState) (d : ToolDef) (f g : Args → Except PyErr TVal) (args : Args) (v : TVal),
        alookup tm.insts d.name = Option.none → g args = .ok v →
        executeTool (registerTool (registerTool tm d (.callableImpl f)).1 d (.callableImpl g)).1
            d.name args false "" = .ok (v, args, [⟨d.name, "call", Option.none⟩]))
    ∧ (∀ (tm : TMState) (d : ToolDef) (f : Args → Except PyErr TVal) (cR : Bool) (rR sR relR : TVal),
        executeTool (registerTool (registerTool tm d (.callableImpl f)).1 d
              (.factoryInstance (.sensor cR rR sR relR))).1
            d.name [("operation", .str "read_data")] false "" =
          .ok (rR, [], [⟨d.name, "read_data", Option.none⟩]))
    ∧ (∀ (tm : TMState) (d : ToolDef) (g : Args → Except PyErr TVal) (cR : Bool) (rR sR relR : TVal),
        executeTool (registerTool (registerTool tm d (.factoryInstance (.sensor cR rR sR relR))).1 d
              (.callableImpl g)).1
            d.name [("operation", .str "read_data")] false "" =
          .ok (rR, [], [⟨d.name, "read_data", Option.none⟩])) := by
  refine ⟨?_, ?_, ?_, ?_, ?_⟩
  · intro tm d spec h
    cases spec <;> simp [registerTool, h]
  · intro tm d spec
    cases spec <;> simp [registerTool, getToolDefinition, alookup_aset_self]
  · intro tm d f g args v hinst hg
    simp [registerTool, executeTool, dispatchTool, alookup_aset_self, hinst, hg]
  · intro tm d f cR rR sR relR
    simp [registerTool, executeTool, dispatchTool, alookup_aset_self, popD, dGet, dErase, isStr]
  · intro tm d g cR rR sR relR
    simp [registerTool, executeTool, dispatchTool, alookup_aset_self, popD, dGet, dErase, isStr]

/-- Witness for C6 amended: the stale-instance conjunct at a concrete
manager, tool and callable. -/
theorem c6_amended_witness :
    executeTool (registerTool (registerTool TMState.empty ⟨"w", "demo", false⟩
          (.factoryInstance (.sensor true (.str "sensor data") .none .none))).1 ⟨"w", "demo", false⟩
          (.callableImpl (fun _ => .ok (.str "callable data")))).1
        "w" [("operation", .str "read_data")] false "" =
      .ok (.str "sensor data", [], [⟨"w", "read_data", Option.none⟩]) :=
  c6_amended_reregistration.2.2.2.2 TMState.empty ⟨"w", "demo", false⟩
    (fun _ => .ok (.str "callable data")) true (.str "sensor data") .none .none

/-- C10, amended: on a successful non-cancelled dispatch, execute_tool
mutates the caller args dict as follows: sensor, ML model and LLM
dispatches pop the operation key; a model predict additionally pops data,
and an LLM generate_response additionally pops prompt; an action dispatch
pops only payload and leaves any operation key in place; a direct-callable
tool leaves the args dict unchanged. -/
theorem c10_amended_args_mutation :
    (∀ (tm : TMState) (nm : String) (d : ToolDef) (cR : Bool) (rR sR relR : TVal)
       (args : Args) (op : String),
        alookup tm.tools nm = some d →
        alookup tm.insts nm = some (.sensor cR rR sR relR) →
        dGet args "operation" = some (.str op) →
        (op = "connect" ∨ op = "read_data" ∨ op = "get_status" ∨ op = "release") →
        ∃ res calls, executeTool tm nm args false "" = .ok (res, dErase args "operation", calls))
    ∧ (∀ (tm : TMState) (nm : String) (d : ToolDef) (loadR : Bool) (predictF : TVal → TVal)
         (sR : TVal) (args : Args) (dataV : TVal),
        alookup tm.tools nm = some d →
        alookup tm.insts nm = some (.mlModel loadR predictF sR) →
        dGet args "operation" = some (.str "predict") →
        dGet (dErase args "operation") "data" = some dataV →
        executeTool tm nm args false "" =
          .ok (predictF dataV, dErase (dErase args "operation") "data", [⟨nm, "predict", some dataV⟩]))
    ∧ (∀ (tm : TMState) (nm : String) (d : ToolDef) (loadR : Bool)
         (generateF : TVal → Args → TVal) (sR : TVal) (args : Args) (promptV : TVal),
        alookup tm.tools nm = some d →
        alookup tm.insts nm = some (.llmProvider loadR generateF sR) →
        dGet args "operation" = some (.str "generate_response") →
        dGet (dErase args "operation") "prompt" = some promptV →
        executeTool tm nm args false "" =
          .ok (generateF promptV (dErase (dErase args "operation") "prompt"),
               dErase (dErase args "operation") "prompt",
               [⟨nm, "generate_response", some promptV⟩]))
    ∧ (∀ (tm : TMState) (nm : String) (d : ToolDef) (executeF : TVal → TVal) (sR : TVal)
         (args : Args),
        alookup tm.tools nm = some d →
        alookup tm.insts nm = some (.action executeF sR) →
        executeTool tm nm args false "" =
          .ok (executeF (popD args "payload" (.dict [])).1, (popD args "payload" (.dict [])).2,
               [⟨nm, "execute", some (popD args "payload" (.dict [])).1⟩])
        ∧ dGet ((popD args "payload" (.dict [])).2) "operation" = dGet args "operation")
    ∧ (∀ (tm : TMState) (nm : String) (d : ToolDef) (fI : Args → Except PyErr TVal) (args : Args),
        alookup tm.tools nm = some d →
        alookup tm.insts nm = Option.none →
        alookup tm.impls nm = some fI →
        ∃ res, executeTool tm nm args false "" = .ok (res, args, [⟨nm, "call", Option.none⟩])) := by
  refine ⟨?_, ?_, ?_, ?_, ?_⟩
  · intro tm nm d cR rR sR relR args op htools hinsts hop hops
    have hpop := popD_eq_of_some args "operation" (.str "read_data") (.str op) hop
    rcases hops with h | h | h | h <;> subst h
    · exact ⟨.bool cR, [⟨nm, "connect", Option.none⟩],
        by simp [executeTool, dispatchTool, htools, hinsts, hpop, isStr]⟩
    · exact ⟨rR, [⟨nm, "read_data", Option.none⟩],
        by simp [executeTool, dispatchTool, htools, hinsts, hpop, isStr]⟩
    · exact ⟨sR, [⟨nm, "get_status", Option.none⟩],
        by simp [executeTool, dispatchTool, htools, hinsts, hpop, isStr]⟩
    · exact ⟨relR, [⟨nm, "release", Option.none⟩],
        by simp [executeTool, dispatchTool, htools, hinsts, hpop, isStr]⟩
  · intro tm nm d loadR predictF sR args dataV htools hinsts hop hdata
    have hpop := popD_eq_of_some args "operation" (.str "predict") (.str "predict") hop
    simp [executeTool, dispatchTool, htools, hinsts, hpop, hdata, isStr, popHard]
  · intro tm nm d loadR generateF sR args promptV htools hinsts hop hprompt
    have hpop := popD_eq_of_some args "operation" (.str "generate_response")
      (.str "generate_response") hop
    simp [executeTool, dispatchTool, htools, hinsts, hpop, hprompt, isStr, popHard]
  · intro tm nm d executeF sR args htools hinsts
    constructor
    · simp [executeTool, dispatchTool, htools, hinsts]
    · cases hpl : dGet args "payload" with
      | none => simp [popD, hpl]
      | some v =>
        simp only [popD, hpl]
        exact dGet_dErase_ne args "payload" "operation" (by decide)
  · intro tm nm d fI args htools hinsts himpls
    cases hres : fI args with
    | ok v => exact ⟨v, by simp [executeTool, dispatchTool, htools, hinsts, himpls, hres]⟩
    | error e => exact ⟨errorResult e, by simp [executeTool, dispatchTool, htools, hinsts, himpls, hres]⟩

/-- Witness for C10 amended: the sensor conjunct at a concrete manager and
args dict carrying an extra key. -/
theorem c10_amended_witness :
    ∃ res calls,
      executeTool (⟨[("cam", ⟨"cam", "camera", true⟩)], [],
                    [("cam", .sensor true (.str "fr") .none .none)]⟩ : TMState)
        "cam" [("operation", .str "connect"), ("x", .int 1)] false "" =
        .ok (res, dErase [("operation", .str "connect"), ("x", .int 1)] "operation", calls) :=
  c10_amended_args_mutation.1 _ "cam" ⟨"cam", "camera", true⟩ true (.str "fr") .none .none
    [("operation", .str "connect"), ("x", .int 1)] "connect" rfl rfl rfl (Or.inl rfl)

end Severino.Claims

namespace Severino.Claims

open Severino Severino.Memory Severino.Tooling Severino.Agent

/-- Path uniqueness of the code_entities table is preserved by every
mutating operation of LongTermMemoryManager: the only INSERT into the
table is guarded by the UNIQUE constraint (a duplicate raises and leaves
the table unchanged), the checksum UPDATE never changes a path, and the
remaining operations either leave the table alone or delete rows. -/
theorem pathUnique_applyOp (op : Op) (db : DB) (h : pathUnique db) :
    pathUnique (applyOp db op) := by
  cases op with
  | createSession s p => simpa [pathUnique, applyOp, createSession] using h
  | updateSessionEndTime s => simpa [pathUnique, applyOp, updateSessionEndTime] using h
  | addMessage s r c => simpa [pathUnique, applyOp, addMessage] using h
  | addRelationship s a b t => simpa [pathUnique, applyOp, addRelationship] using h
  | setSessionData s k v => simpa [pathUnique, applyOp, setSessionData] using h
  | clearSessionData s =>
    have hsub : ((applyOp db (.clearSessionData s)).codeEntities.map (fun r => r.path)).Sublist
        (db.codeEntities.map (fun r => r.path)) := by
      have h1 : (applyOp db (.clearSessionData s)).codeEntities
          = db.codeEntities.filter (fun r => !(r.sessionId == s)) := rfl
      rw [h1]
      exact (List.filter_sublist _).map _
    exact List.Nodup.sublist hsub h
  | updateCodeEntityChecksum p ck lm =>
    have hmap : (applyOp db (.updateCodeEntityChecksum p ck lm)).codeEntities.map
          (fun r => r.path)
        = db.codeEntities.map (fun r => r.path) := by
      simp only [applyOp, updateCodeEntityChecksum, List.map_map]
      refine List.map_congr_left ?_
      intro r _
      simp only [Function.comp_apply]
      split <;> rfl
    unfold pathUnique
    rw [hmap]
    exact h
  | addCodeEntity s p ty nm ck lm emb =>
    by_cases hg : db.codeEntities.any (fun r => r.path == p) = true
    · simpa [applyOp, addCodeEntity, hg] using h
    · have hg2 : db.codeEntities.any (fun r => r.path == p) = false := by
        simpa using hg
      have hmem : p ∉ db.codeEntities.map (fun r => r.path) := by
        intro hmem
        obtain ⟨r, hr, hrp⟩ := List.mem_map.mp hmem
        have hfalse := (List.any_eq_false.mp hg2) r hr
        rw [hrp] at hfalse
        simp at hfalse
      simp only [applyOp, addCodeEntity, hg2]
      unfold pathUnique
      simp only [Bool.false_eq_true, if_false, List.map_append, List.map_cons, List.map_nil]
      rw [List.nodup_append]
      exact ⟨h, List.nodup_singleton _, List.disjoint_singleton.mpr hmem⟩

/-- C5: registering a code entity at an absent path P, then registering P
again with the same checksum, leaves exactly one row for P, does not
invoke the update path (the second registration is a skip that returns the
store unchanged), while a registration with a different checksum updates
checksum and last-modified in place, still with exactly one row; and path
uniqueness is an invariant preserved by every store operation. -/
theorem c5_register_code_entity (db : DB) (sid path ty nm c1 c2 t1 t2 t3 : String)
    (emb : Option (List Int))
    (hnone : getCodeEntity db path = Option.none)
    (hdiff : c2 ≠ c1) :
    (∀ (op : Op) (d : DB), pathUnique d → pathUnique (applyOp d op))
    ∧ C5RegisterTwice db sid path ty nm c1 c2 t1 t2 t3 emb := by
  refine ⟨fun op d hd => pathUnique_applyOp op d hd, ?_⟩
  have hnone2 : db.codeEntities.find? (fun r => r.path == path) = Option.none := hnone
  have hall : ∀ r ∈ db.codeEntities, ¬(r.path == path) = true :=
    List.find?_eq_none.mp hnone2
  have hany : db.codeEntities.any (fun r => r.path == path) = false :=
    List.any_eq_false.mpr hall
  have hfilter : db.codeEntities.filter (fun r => r.path == path) = [] :=
    List.filter_eq_nil_iff.mpr hall
  have hmapid : ∀ (ck lm : String),
      db.codeEntities.map (fun r =>
        if r.path == path then { r with checksum := ck, lastModified := lm } else r)
      = db.codeEntities := by
    intro ck lm
    have := List.map_congr_left (l := db.codeEntities)
      (f := fun r => if r.path == path then { r with checksum := ck, lastModified := lm } else r)
      (g := fun r => r)
      (fun r hr => by
        have hfalse := hall r hr
        simp only [Bool.not_eq_true] at hfalse
        simp [hfalse])
    simpa using this
  refine ⟨{ db with
              codeEntities := db.codeEntities ++ [⟨db.nextEntityId, sid, path, ty, nm, c1, t1, emb⟩],
              nextEntityId := db.nextEntityId + 1 },
          { db with
              codeEntities := db.codeEntities ++ [⟨db.nextEntityId, sid, path, ty, nm, c2, t3, emb⟩],
              nextEntityId := db.nextEntityId + 1 },
          ?_, ?_, ?_, ?_, ?_⟩
  all_goals
    have hfind1 : getCodeEntity
        ({ db with
            codeEntities := db.codeEntities ++ [⟨db.nextEntityId, sid, path, ty, nm, c1, t1, emb⟩],
            nextEntityId := db.nextEntityId + 1 } : DB) path =
        some ⟨db.nextEntityId, sid, path, ty, nm, c1, t1, emb⟩ := by
      show List.find? (fun r => r.path == path)
          (db.codeEntities ++ [(⟨db.nextEntityId, sid, path, ty, nm, c1, t1, emb⟩ : CodeEntityRow)]) =
        some (⟨db.nextEntityId, sid, path, ty, nm, c1, t1, emb⟩ : CodeEntityRow)
      rw [List.find?_append, hnone2]
      simp [List.find?]
  · simp [registerFileEntity, getCodeEntity, hnone2, addCodeEntity, hany, Except.map]
  · unfold registerFileEntity
    rw [hfind1]
    simp
  · simp [List.filter_append, hfilter, List.filter]
  · have hbne : (c1 != c2) = true := bne_iff_ne.mpr (Ne.symm hdiff)
    have hupd : updateCodeEntityChecksum
        ({ db with
            codeEntities := db.codeEntities ++ [⟨db.nextEntityId, sid, path, ty, nm, c1, t1, emb⟩],
            nextEntityId := db.nextEntityId + 1 } : DB) path c2 t3 =
        { db with
            codeEntities := db.codeEntities ++ [⟨db.nextEntityId, sid, path, ty, nm, c2, t3, emb⟩],
            nextEntityId := db.nextEntityId + 1 } := by
      unfold updateCodeEntityChecksum
      simp only [List.map_append, hmapid c2 t3, List.map_cons, List.map_nil]
      simp
    unfold registerFileEntity
    rw [hfind1]
    simp [hbne, hupd]
  · simp [List.filter_append, hfilter, List.filter]

/-- Witness for C5 at the empty store and distinct concrete checksums. -/
theorem c5_witness :
    getCodeEntity DB.empty "/proj/f.py" = Option.none
    ∧ ("beta" : String) ≠ "alfa"
    ∧ ((∀ (op : Op) (d : DB), pathUnique d → pathUnique (applyOp d op))
       ∧ C5RegisterTwice DB.empty "s" "/proj/f.py" "file" "f.py" "alfa" "beta" "t1" "t2" "t3"
           Option.none) :=
  ⟨rfl, by decide,
   c5_register_code_entity DB.empty "s" "/proj/f.py" "file" "f.py" "alfa" "beta" "t1" "t2" "t3"
     Option.none rfl (by decide)⟩

end Severino.Claims

namespace Severino.Claims

open Severino Severino.Memory Severino.Tooling Severino.Agent

/-- Bind on a successful Except computation reduces to the continuation. -/
theorem exceptBindOk {ε α β : Type} (a : α) (f : α → Except ε β) :
    (Except.ok a : Except ε α) >>= f = f a := rfl

/-- Bind on a failed Except computation propagates the error. -/
theorem exceptBindErr {ε α β : Type} (e : ε) (f : α → Except ε β) :
    (Except.error e : Except ε α) >>= f = Except.error e := rfl

/-- Map over a successful Except computation applies the function. -/
theorem exceptMapOk {ε α β : Type} (f : α → β) (a : α) :
    f <$> (Except.ok a : Except ε α) = Except.ok (f a) := rfl

/-- Truthiness of a bool value. -/
theorem truthy_bool (b : Bool) : truthy (.bool b) = b := rfl

/-- Truthiness of None. -/
theorem truthy_none : truthy .none = false := rfl

/-- Truthiness of a string value. -/
theorem truthy_str (s : String) : truthy (.str s) = (s != "") := rfl

/-- Truthiness of a dict value. -/
theorem truthy_dict (kvs : List (String × TVal)) : truthy (.dict kvs) = !kvs.isEmpty := rfl

/-- The sensor loop of the seeding distributes over list append. -/
theorem sensorSeedSteps_append (a b : List TVal) :
    sensorSeedSteps (a ++ b) = sensorSeedSteps a ++ sensorSeedSteps b := by
  induction a with
  | nil => rfl
  | cons hd tl ih => simp [sensorSeedSteps, ih]

/-- The model loop of the seeding distributes over list append. -/
theorem modelSeedSteps_append (a b : List TVal) :
    modelSeedSteps (a ++ b) = modelSeedSteps a ++ modelSeedSteps b := by
  induction a with
  | nil => rfl
  | cons hd tl ih => simp [modelSeedSteps, ih]

/-- C8: whenever required_capabilities maps sensors to a list containing
video_camera and ml_models to a list containing object_detection, the
deterministic Break-Down seed contains, in this order, the camera-connect
step, the camera-read step, the model-load step and the predict step; and
the refinement request subsequently submitted to the LLM embeds exactly
this already-seeded plan, so the four steps exist before any LLM
refinement is requested. -/
theorem c8_seed_plan_order (rdkvs rckvs : List (String × TVal)) (ss ms : List TVal)
    (hrc : dGet rdkvs "required_capabilities" = some (.dict rckvs))
    (hss : dGet rckvs "sensors" = some (.list ss))
    (hms : dGet rckvs "ml_models" = some (.list ms))
    (hvc : TVal.str "video_camera" ∈ ss)
    (hod : TVal.str "object_detection" ∈ ms) :
    ∃ pre mid post : List TVal,
      breakDownSeed (dGetD rdkvs "required_capabilities" (.dict [])) =
        .ok (pre ++ connectCameraStep "video_camera" :: readCameraStep "video_camera" ::
             (mid ++ loadModelStep "object_detection" :: predictModelStep "object_detection" :: post))
      ∧ breakDownRefineRequest (.dict rdkvs) =
          .ok (.refine (dGetD rdkvs "goal" (.str "")) (dGetD rdkvs "entities" (.list []))
               (pre ++ connectCameraStep "video_camera" :: readCameraStep "video_camera" ::
                (mid ++ loadModelStep "object_detection" :: predictModelStep "object_detection" :: post))) := by
  obtain ⟨s1, s2, rfl⟩ := List.append_of_mem hvc
  obtain ⟨m1, m2, rfl⟩ := List.append_of_mem hod
  refine ⟨sensorSeedSteps s1, sensorSeedSteps s2 ++ modelSeedSteps m1, modelSeedSteps m2, ?_, ?_⟩
  · simp [breakDownSeed, dGetD, hrc, hss, hms, sensorSeedSteps_append, modelSeedSteps_append,
          sensorSeedSteps, modelSeedSteps, isStr, exceptBindOk, exceptBindErr, exceptMapOk]
  · simp [breakDownRefineRequest, asDict, breakDownSeed, dGetD, hrc, hss, hms,
          sensorSeedSteps_append, modelSeedSteps_append, sensorSeedSteps, modelSeedSteps, isStr,
          exceptBindOk, exceptBindErr, exceptMapOk]

/-- Witness for C8 at the balcony-watching capability map. -/
theorem c8_witness :
    dGet [("goal", .str "Watch my child on the balcony"),
          ("required_capabilities",
           .dict [("sensors", .list [.str "video_camera"]),
                  ("ml_models", .list [.str "object_detection"])])] "required_capabilities" =
      some (.dict [("sensors", .list [.str "video_camera"]),
                   ("ml_models", .list [.str "object_detection"])])
    ∧ TVal.str "video_camera" ∈ [TVal.str "video_camera"]
    ∧ (∃ pre mid post : List TVal,
        breakDownSeed (dGetD [("goal", .str "Watch my child on the balcony"),
            ("required_capabilities",
             .dict [("sensors", .list [.str "video_camera"]),
                    ("ml_models", .list [.str "object_detection"])])]
            "required_capabilities" (.dict [])) =
          .ok (pre ++ connectCameraStep "video_camera" :: readCameraStep "video_camera" ::
               (mid ++ loadModelStep "object_detection" :: predictModelStep "object_detection" :: post))
        ∧ breakDownRefineRequest (.dict [("goal", .str "Watch my child on the balcony"),
            ("required_capabilities",
             .dict [("sensors", .list [.str "video_camera"]),
                    ("ml_models", .list [.str "object_detection"])])]) =
            .ok (.refine (dGetD [("goal", .str "Watch my child on the balcony"),
                  ("required_capabilities",
                   .dict [("sensors", .list [.str "video_camera"]),
                          ("ml_models", .list [.str "object_detection"])])] "goal" (.str ""))
                 (dGetD [("goal", .str "Watch my child on the balcony"),
                  ("required_capabilities",
                   .dict [("sensors", .list [.str "video_camera"]),
                          ("ml_models", .list [.str "object_detection"])])] "entities" (.list []))
                 (pre ++ connectCameraStep "video_camera" :: readCameraStep "video_camera" ::
                  (mid ++ loadModelStep "object_detection" :: predictModelStep "object_detection" :: post)))) :=
  ⟨rfl, by simp,
   c8_seed_plan_order _ _ [.str "video_camera"] [.str "object_detection"]
     rfl rfl rfl (by simp) (by simp)⟩

set_option maxHeartbeats 2000000 in
/-- C9: executing the plan connect camera, read frame, load model, predict
with placeholder data, where the sensor read returns a truthy frame and
the model load succeeds, produces an executed predict StepResult whose
underlying predict invocation received the captured frame as its data
argument — not the literal frame placeholder string — and the Execute
stage completes without raising. -/
theorem c9_execute_predict_substitution (connectOk : Bool) (frame : TVal)
    (predictF : TVal → TVal)
    (hframe : truthy frame = true)
    (hnp : frame ≠ .str "<frame_placeholder>") :
    executePlan (c9TM connectOk frame predictF) "" c9Plan =
      .ok ([⟨.str "Connect to video_camera", "executed", some (.bool connectOk), Option.none⟩,
            ⟨.str "Read frame from video_camera", "executed", some (.str "Frame captured."), Option.none⟩,
            ⟨.str "Load object_detection model", "executed", some (.str "Model loaded."), Option.none⟩,
            ⟨.str "Perform object_detection on frame", "executed",
             some (.dict [("detections", predictF frame)]), Option.none⟩],
           [⟨"main_camera_sensor", "connect", Option.none⟩,
            ⟨"main_camera_sensor", "read_data", Option.none⟩,
            ⟨"object_detection_model", "load_model", Option.none⟩,
            ⟨"object_detection_model", "predict", some frame⟩])
    ∧ some frame ≠ some (TVal.str "<frame_placeholder>") := by
  constructor
  · simp [executePlan, executePlanGo, execStep, c9TM, c9Plan, connectCameraStep, readCameraStep,
          loadModelStep, predictModelStep, executeTool, dispatchTool, alookup, asDict, dGet, dGetD,
          isStr, nameIs, popD, popHard, dErase, dSet, truthy_bool, truthy_none, truthy_str,
          truthy_dict, hframe, exceptBindOk, exceptBindErr, exceptMapOk]
  · simpa using hnp

/-- Witness for C9 at a concrete frame and detector behavior. -/
theorem c9_witness :
    truthy (.str "frame bytes") = true
    ∧ TVal.str "frame bytes" ≠ .str "<frame_placeholder>"
    ∧ (executePlan (c9TM true (.str "frame bytes") (fun v => .list [v])) "" c9Plan =
        .ok ([⟨.str "Connect to video_camera", "executed", some (.bool true), Option.none⟩,
              ⟨.str "Read frame from video_camera", "executed", some (.str "Frame captured."), Option.none⟩,
              ⟨.str "Load object_detection model", "executed", some (.str "Model loaded."), Option.none⟩,
              ⟨.str "Perform object_detection on frame", "executed",
               some (.dict [("detections", .list [.str "frame bytes"])]), Option.none⟩],
             [⟨"main_camera_sensor", "connect", Option.none⟩,
              ⟨"main_camera_sensor", "read_data", Option.none⟩,
              ⟨"object_detection_model", "load_model", Option.none⟩,
              ⟨"object_detection_model", "predict", some (.str "frame bytes")⟩])
       ∧ some (TVal.str "frame bytes") ≠ some (TVal.str "<frame_placeholder>")) :=
  ⟨rfl, by simp,
   c9_execute_predict_substitution true (.str "frame bytes") (fun v => .list [v]) rfl (by simp)⟩

set_option maxHeartbeats 2000000 in
/-- C1: the claim says process_directive always returns insight plus a
non-empty thought log and does not raise even when every LLM response
fails JSON parsing.  On the code, with every parse failing, every stage
does degrade to its fallback (the Compile fallback insight dict is
produced), but persisting that dict calls update_session_data, whose
json.dumps call hits the missing json import in working_memory_manager.py:
process_directive raises NameError instead of returning. -/
theorem c1_process_directive_code_bug (jsonLoads : String → Option TVal)
    (llm : Prompt → String) (tm : TMState) (db : DB)
    (sessionId confirmReply directive : String)
    (hparse : ∀ s, jsonLoads s = Option.none) :
    processDirective jsonLoads llm tm db sessionId confirmReply directive =
      .error (.nameError "json")
    ∧ ∀ results : List StepResult,
        compileResults jsonLoads llm results =
          .dict [("raw_results", .list (results.map StepResult.toTVal)),
                 ("compilation_error", .str (llm (.compileStage (results.map StepResult.toTVal))))] := by
  constructor
  · simp [processDirective, refactorDirective, breakDownTask, breakDownRefineRequest, asDict,
          breakDownSeed, dGetD, dGet, executePlan, executePlanGo, execStep, truthy_bool,
          truthy_none, truthy_str, truthy_dict, compileResults, wmUpdateSessionData, hparse,
          exceptBindOk, exceptBindErr, exceptMapOk]
  · intro results
    simp [compileResults, hparse]

/-- Witness for C1: a concrete parse-everything-fails LLM environment. -/
theorem c1_witness :
    (∀ s : String, (fun _ : String => (Option.none : Option TVal)) s = Option.none)
    ∧ (processDirective (fun _ => Option.none) (fun _ => "not json") TMState.empty DB.empty
          "s" "" "hi" = .error (.nameError "json")
       ∧ ∀ results : List StepResult,
           compileResults (fun _ => Option.none) (fun _ => "not json") results =
             .dict [("raw_results", .list (results.map StepResult.toTVal)),
                    ("compilation_error",
                     .str ((fun _ => "not json")
                        (Prompt.compileStage (results.map StepResult.toTVal))))]) :=
  ⟨fun _ => rfl,
   c1_process_directive_code_bug (fun _ => Option.none) (fun _ => "not json") TMState.empty
     DB.empty "s" "" "hi" (fun _ => rfl)⟩

end Severino.Claims
